import Mathlib

/-!
Shallow embedding of the order-analytics dashboard (src/app.py) and proofs
about its aggregation pipeline.  The script reads an Orders sheet and a
Searches (funnel) sheet, validates required columns, derives an eventName
column, filters by selected event names, splits confirmed vs cart rows,
and computes summary scalars, daily series, funnel metrics and a price
distribution.  Tables are modelled as lists of records; pandas NaN cells
are modelled as `Option` fields; currency values are rationals.
-/

/-- Static eventId → display-name lookup table (app.py lines 10-24). -/
def event_names : List (Int × String) :=
  [(2, "Rimini Marathon"), (5, "Champions Pulcini"), (9, "Nova Eroica"), (10, "50KM Romagna"),
   (11, "Bulls Game"), (13, "Triathlon Caorle"), (14, "GF Squali"), (15, "Nove Colli"),
   (16, "Oceanman Cattolica"), (18, "Ironlake"), (19, "GFVento"), (20, "Bardolino"), (21, "WMF")]

/-- First-match association lookup, modelling Python dict lookup used by
`Series.map(event_names)`. -/
def lookupName (id : Int) : List (Int × String) → Option String
  | [] => none
  | (k, v) :: rest => if id = k then some v else lookupName id rest

/-- Derived event name: the lookup-table name when present, else the
stringified id (`.map(event_names).fillna(df["eventId"].astype(str))`,
app.py line 40). -/
def eventNameOf (id : Int) : String :=
  match lookupName id event_names with
  | some n => n
  | none => toString id

/-- One row of the Orders sheet.  `none` models a NaN cell; `datePayment`
is the already-parsed payment date (`none` = null or unparsable, matching
`pd.to_datetime(..., errors="coerce")`). -/
structure OrderRow where
  eventId : Int
  amount : Option ℚ
  stateId : Option Int
  datePayment : Option Nat
deriving DecidableEq

/-- One row of the Searches (funnel) sheet. -/
structure SearchRow where
  event_id : Int
  total_users_count : ℚ
  unique_users_count : ℚ
  total_orders_users : ℚ
  total_orders : ℚ
  total_allphotos : ℚ
deriving DecidableEq

/-- Orders row after normalization: the derived `eventName` column added. -/
structure NOrderRow extends OrderRow where
  eventName : String
deriving DecidableEq

/-- Searches row after normalization: the derived `eventName` column added. -/
structure NSearchRow extends SearchRow where
  eventName : String
deriving DecidableEq

/-- Add the `eventName` column to every orders row (app.py line 40). -/
def normalizeOrders (rows : List OrderRow) : List NOrderRow :=
  rows.map (fun r => { toOrderRow := r, eventName := eventNameOf r.eventId })

/-- Add the `eventName` column to every searches row (app.py line 43). -/
def normalizeSearches (rows : List SearchRow) : List NSearchRow :=
  rows.map (fun s => { toSearchRow := s, eventName := eventNameOf s.event_id })

/-- Worker for `pdUnique`: keep the first occurrence of each value,
skipping values already seen. -/
def pdUniqueAux {α : Type} [DecidableEq α] (seen : List α) : List α → List α
  | [] => []
  | a :: l => if a ∈ seen then pdUniqueAux seen l else a :: pdUniqueAux (a :: seen) l

/-- Distinct values in first-occurrence order, modelling `Series.unique()`. -/
def pdUnique {α : Type} [DecidableEq α] (l : List α) : List α :=
  pdUniqueAux [] l

/-- Event filter on orders: an empty selection means no filter
(`if selected_events:` at app.py lines 57-61). -/
def selectedFilter (selected : List String) (rows : List NOrderRow) : List NOrderRow :=
  if selected = [] then rows else rows.filter (fun r => decide (r.eventName ∈ selected))

/-- Event filter on searches rows, same truthiness convention. -/
def searchesFilter (selected : List String) (rows : List NSearchRow) : List NSearchRow :=
  if selected = [] then rows else rows.filter (fun s => decide (s.eventName ∈ selected))

/-- Confirmed subset: rows whose stateId is not 1 (`df[df["stateId"] != 1]`,
app.py line 69).  In pandas a NaN stateId compares `!= 1` as True, so a
`none` stateId lands here. -/
def confirmed (df : List NOrderRow) : List NOrderRow :=
  df.filter (fun r => decide (r.stateId ≠ some 1))

/-- Cart/abandoned subset: rows whose stateId is exactly 1 (app.py line 70). -/
def cart_users (df : List NOrderRow) : List NOrderRow :=
  df.filter (fun r => decide (r.stateId = some 1))

/-- Sum of the amount column, skipping NaN (pandas `.sum()` default). -/
def sumAmounts (rows : List NOrderRow) : ℚ :=
  (rows.filterMap (fun r => r.amount)).sum

/-- Mean of the amount column, skipping NaN; `none` models the NaN that
pandas `.mean()` returns when no non-null value exists. -/
def meanAmounts (rows : List NOrderRow) : Option ℚ :=
  if (rows.filterMap (fun r => r.amount)).length = 0 then none
  else some (sumAmounts rows / ((rows.filterMap (fun r => r.amount)).length : ℚ))

/-- Price-bucket labels (app.py line 318). -/
def labels : List String := ["0-10€", "11-20€", "21-30€", "31-40€", "41-50€", ">50€"]

/-- Price-range bucketing, modelling `pd.cut(amount, bins=[0,10,20,30,40,50,inf],
labels=labels)` with the pandas defaults `right=True, include_lowest=False`:
the bins are left-open right-closed, `(0,10], (10,20], (20,30], (30,40],
(40,50], (50,inf)`, and any amount ≤ 0 falls outside every bin (NaN,
modelled as `none`). -/
def priceBucket (a : ℚ) : Option String :=
  if 0 < a ∧ a ≤ 10 then some "0-10€"
  else if 10 < a ∧ a ≤ 20 then some "11-20€"
  else if 20 < a ∧ a ≤ 30 then some "21-30€"
  else if 30 < a ∧ a ≤ 40 then some "31-40€"
  else if 40 < a ∧ a ≤ 50 then some "41-50€"
  else if 50 < a then some ">50€"
  else none

/-- Bucket of an optional amount: a NaN amount buckets to NaN. -/
def priceBucketOpt (a : Option ℚ) : Option String :=
  a.bind priceBucket

/-- Per-bucket counts in category order, NaN rows dropped (the counts
underlying `value_counts()` on the categorical `price_range` column:
every one of the six categories is present, zero-filled). -/
def bucketCounts (conf : List NOrderRow) : List (String × ℕ) :=
  labels.map (fun l => (l, (conf.filter (fun r => decide (priceBucketOpt r.amount = some l))).length))

/-- Comparison used by `value_counts()`: larger counts first. -/
def countGe (a b : String × ℕ) : Prop := b.2 ≤ a.2

instance : DecidableRel countGe := fun a b => Nat.decLe b.2 a.2

instance : IsTotal (String × ℕ) countGe := ⟨fun a b => le_total b.2 a.2⟩

instance : IsTrans (String × ℕ) countGe := ⟨fun _ _ _ h1 h2 => le_trans h2 h1⟩

/-- `confirmed["price_range"].value_counts()` (app.py line 322): all six
categorical buckets, sorted by count descending (pandas sorts value_counts
by frequency, not by bin; the order of equal-count buckets is an
implementation detail of the sort, modelled here as category order). -/
def price_distribution (conf : List NOrderRow) : List (String × ℕ) :=
  List.insertionSort countGe (bucketCounts conf)

/-- Daily sums of the amount column, grouped by date ascending
(`date_df.groupby("date")["amount"].sum()`, app.py lines 100-105). -/
def amount_by_date (rows : List NOrderRow) : List (Nat × ℚ) :=
  (List.insertionSort (fun a b : Nat => a ≤ b) (pdUnique (rows.filterMap (fun r => r.datePayment)))).map
    (fun d => (d, sumAmounts (rows.filter (fun r => decide (r.datePayment = some d)))))

/-- Lexicographic order on (date, eventName) group keys. -/
def dateEventLe (a b : Nat × String) : Prop :=
  a.1 < b.1 ∨ (a.1 = b.1 ∧ a.2 ≤ b.2)

instance : DecidableRel dateEventLe := fun a b =>
  inferInstanceAs (Decidable (a.1 < b.1 ∨ (a.1 = b.1 ∧ a.2 ≤ b.2)))

/-- Daily sums grouped by date and event
(`date_df.groupby(["date","eventName"])["amount"].sum()`, app.py lines 119-124). -/
def amount_by_date_event (rows : List NOrderRow) : List ((Nat × String) × ℚ) :=
  (List.insertionSort dateEventLe
      (pdUnique (rows.filterMap (fun r => r.datePayment.map (fun d => (d, r.eventName)))))).map
    (fun k => (k, sumAmounts (rows.filter (fun r => decide (r.datePayment = some k.1 ∧ r.eventName = k.2)))))

/-- The daily chart is a single series in single-event mode, a per-event
family of series otherwise (app.py lines 98-137). -/
inductive DailySeries : Type
  | single : List (Nat × ℚ) → DailySeries
  | byEvent : List ((Nat × String) × ℚ) → DailySeries
deriving DecidableEq

/-- Group keys for the per-event charts, ascending (pandas groupby sorts keys). -/
def eventKeys (conf : List NOrderRow) : List String :=
  List.insertionSort (fun a b : String => a ≤ b) (pdUnique (conf.map (fun r => r.eventName)))

/-- `confirmed.groupby("eventName")["amount"].mean()` (app.py line 282). -/
def avg_amount_by_event (conf : List NOrderRow) : List (String × Option ℚ) :=
  (eventKeys conf).map (fun n => (n, meanAmounts (conf.filter (fun r => decide (r.eventName = n)))))

/-- `confirmed.groupby("eventName")["amount"].sum()` (app.py line 295). -/
def total_amount_by_event (conf : List NOrderRow) : List (String × ℚ) :=
  (eventKeys conf).map (fun n => (n, sumAmounts (conf.filter (fun r => decide (r.eventName = n)))))

/-- The five funnel scalars summed from the Searches sheet. -/
structure FunnelTotals where
  selfies_count : ℚ
  unique_users : ℚ
  cart_users_count : ℚ
  purchases_count : ℚ
  complete_packages : ℚ
deriving DecidableEq

/-- One loop step of the funnel accumulation: add the sums of one event's
matching searches rows, skipping events with no match
(`if not event_data.empty:`, app.py lines 166-174). -/
def addEventData (acc : FunnelTotals) (ed : List NSearchRow) : FunnelTotals :=
  if ed = [] then acc
  else
    { selfies_count := acc.selfies_count + (ed.map (fun s => s.total_users_count)).sum
      unique_users := acc.unique_users + (ed.map (fun s => s.unique_users_count)).sum
      cart_users_count := acc.cart_users_count + (ed.map (fun s => s.total_orders_users)).sum
      purchases_count := acc.purchases_count + (ed.map (fun s => s.total_orders)).sum
      complete_packages := acc.complete_packages + (ed.map (fun s => s.total_allphotos)).sum }

/-- Funnel accumulation over the distinct event ids of the filtered orders
(app.py lines 158-174): all five counters start at 0 and stay 0 when the
filtered searches table is empty. -/
def funnelTotals (df : List NOrderRow) (searchesF : List NSearchRow) : FunnelTotals :=
  if searchesF = [] then ⟨0, 0, 0, 0, 0⟩
  else
    (pdUnique (df.map (fun r => r.eventId))).foldl
      (fun acc eid => addEventData acc (searchesF.filter (fun s => decide (s.event_id = eid))))
      ⟨0, 0, 0, 0, 0⟩

/-- Pareto bar values in chart order (app.py line 181). -/
def paretoValues (ft : FunnelTotals) : List ℚ :=
  [ft.selfies_count, ft.unique_users, ft.cart_users_count, ft.purchases_count, ft.complete_packages]

/-- Single-event mode: `if selected_events and len(selected_events) == 1`
(app.py line 98). -/
def singleEventMode (selected : List String) : Bool :=
  !selected.isEmpty && selected.length == 1

/-- Everything the dashboard derives from the filtered tables.  `cum_pct`
is `none` exactly when `selfies_count = 0`: at that input the script's
`values / selfies_count * 100` (app.py line 184) divides by zero — a plain
Python list divided by the int 0 raises TypeError (and a numpy zero yields
NaNs) — so no percentage list exists. -/
structure ResultBundle where
  confirmed : List NOrderRow
  cart_users : List NOrderRow
  total_orders : ℕ
  total_amount : ℚ
  avg_amount : Option ℚ
  dailySeries : DailySeries
  selfies_count : ℚ
  unique_users : ℚ
  cart_users_count : ℚ
  purchases_count : ℚ
  complete_packages : ℚ
  pareto_values : List ℚ
  cum_pct : Option (List ℚ)
  conversion_rate : ℚ
  user_value : ℚ
  avgAmountByEvent : List (String × Option ℚ)
  totalAmountByEvent : List (String × ℚ)
  price_distribution : List (String × ℕ)
deriving DecidableEq

/-- The aggregation over the filtered orders `df` and filtered searches
(app.py lines 75-346, the nonempty-confirmed branch). -/
def aggregate (selected : List String) (df : List NOrderRow) (searchesF : List NSearchRow) : ResultBundle :=
  { confirmed := confirmed df
    cart_users := cart_users df
    total_orders := (confirmed df).length
    total_amount := sumAmounts (confirmed df)
    avg_amount := meanAmounts (confirmed df)
    dailySeries :=
      if singleEventMode selected then
        DailySeries.single (amount_by_date ((confirmed df).filter (fun r => r.datePayment.isSome)))
      else
        DailySeries.byEvent (amount_by_date_event ((confirmed df).filter (fun r => r.datePayment.isSome)))
    selfies_count := (funnelTotals df searchesF).selfies_count
    unique_users := (funnelTotals df searchesF).unique_users
    cart_users_count := (funnelTotals df searchesF).cart_users_count
    purchases_count := (funnelTotals df searchesF).purchases_count
    complete_packages := (funnelTotals df searchesF).complete_packages
    pareto_values := paretoValues (funnelTotals df searchesF)
    cum_pct :=
      if (funnelTotals df searchesF).selfies_count = 0 then none
      else some ((paretoValues (funnelTotals df searchesF)).map
        (fun v => v / (funnelTotals df searchesF).selfies_count * 100))
    conversion_rate :=
      if 0 < (funnelTotals df searchesF).unique_users then
        (funnelTotals df searchesF).purchases_count / (funnelTotals df searchesF).unique_users * 100
      else 0
    user_value :=
      if 0 < (funnelTotals df searchesF).unique_users then
        sumAmounts (confirmed df) / (funnelTotals df searchesF).unique_users
      else 0
    avgAmountByEvent := avg_amount_by_event (confirmed df)
    totalAmountByEvent := total_amount_by_event (confirmed df)
    price_distribution := price_distribution (confirmed df) }

/-- Schema-validation failure: which sheet, and the column names listed in
the error message. -/
structure SchemaError where
  sheet : String
  namedColumns : List String
deriving DecidableEq

/-- The Orders-sheet error names all three required columns (app.py line 35). -/
def ordersSchemaError : SchemaError :=
  { sheet := "Orders", namedColumns := ["eventId", "amount", "stateId"] }

/-- The Searches-sheet error names both required columns (app.py line 37). -/
def searchesSchemaError : SchemaError :=
  { sheet := "Searches", namedColumns := ["event_id", "unique_users_count"] }

/-- Outcome of one render: schema failure, the no-confirmed-orders warning
(app.py line 73), or a rendered result bundle. -/
inductive AppResult : Type
  | schemaFailure : SchemaError → AppResult
  | noConfirmedWarning : AppResult
  | rendered : ResultBundle → AppResult
deriving DecidableEq

/-- The whole per-upload pipeline (app.py lines 34-346): validate both
sheets, normalize, filter by selected events, split off the confirmed
subset, and aggregate when it is nonempty. -/
def runApp (ordersCols searchesCols : List String) (orders : List OrderRow)
    (searches : List SearchRow) (selected : List String) : AppResult :=
  if "eventId" ∉ ordersCols ∨ "amount" ∉ ordersCols ∨ "stateId" ∉ ordersCols then
    AppResult.schemaFailure ordersSchemaError
  else if "event_id" ∉ searchesCols ∨ "unique_users_count" ∉ searchesCols then
    AppResult.schemaFailure searchesSchemaError
  else if confirmed (selectedFilter selected (normalizeOrders orders)) = [] then
    AppResult.noConfirmedWarning
  else
    AppResult.rendered
      (aggregate selected (selectedFilter selected (normalizeOrders orders))
        (searchesFilter selected (normalizeSearches searches)))

/-- A row carrying a strictly positive (non-null) amount — exactly the
rows that land in some price bucket. -/
def posAmount (r : NOrderRow) : Bool :=
  match r.amount with
  | some a => decide (0 < a)
  | none => false

/-- A row carrying a non-negative non-null amount. -/
def nonNegAmount (r : NOrderRow) : Bool :=
  match r.amount with
  | some a => decide (0 ≤ a)
  | none => false

/-- The full set of event names occurring in the (normalized) orders table. -/
def allEventNames (orders : List OrderRow) : List String :=
  pdUnique ((normalizeOrders orders).map (fun r => r.eventName))

/-- The daily-series component of a run, when one was rendered. -/
def resultDaily : AppResult → Option DailySeries
  | AppResult.rendered b => some b.dailySeries
  | _ => none

def fullOrderCols : List String := ["eventId", "amount", "stateId", "datePayment"]

def fullSearchCols : List String :=
  ["event_id", "unique_users_count", "total_users_count", "total_orders_users",
   "total_orders", "total_allphotos"]

def w2row : NOrderRow :=
  { eventId := 2, amount := some 10, stateId := some 4, datePayment := none,
    eventName := "Rimini Marathon" }

def w10row : NOrderRow :=
  { eventId := 5, amount := some 3, stateId := none, datePayment := none,
    eventName := "Champions Pulcini" }

def c6orders : List OrderRow :=
  [{ eventId := 2, amount := some 10, stateId := some 1, datePayment := none }]

def c3orders : List OrderRow :=
  [{ eventId := 2, amount := some 10, stateId := some 4, datePayment := none }]

def c3result : ResultBundle := aggregate [] (normalizeOrders c3orders) []

def c1orders : List OrderRow :=
  [{ eventId := 2, amount := some 5, stateId := some 4, datePayment := none },
   { eventId := 2, amount := some 15, stateId := some 4, datePayment := none },
   { eventId := 2, amount := some 25, stateId := some 4, datePayment := none },
   { eventId := 2, amount := some 60, stateId := some 4, datePayment := none }]

def c4rows : List NOrderRow :=
  [{ eventId := 2, amount := some 60, stateId := some 4, datePayment := none,
     eventName := "Rimini Marathon" },
   { eventId := 2, amount := some 60, stateId := some 4, datePayment := none,
     eventName := "Rimini Marathon" },
   { eventId := 2, amount := some 0, stateId := some 4, datePayment := none,
     eventName := "Rimini Marathon" }]

def c7worders : List OrderRow :=
  [{ eventId := 2, amount := some 10, stateId := some 4, datePayment := none },
   { eventId := 5, amount := some 20, stateId := some 4, datePayment := none }]

def c7orders : List OrderRow :=
  [{ eventId := 2, amount := some 10, stateId := some 4, datePayment := some 1 },
   { eventId := 2, amount := some 20, stateId := some 4, datePayment := some 2 }]

/-! ### Helper lemmas -/

theorem mem_pdUniqueAux {α : Type} [DecidableEq α] :
    ∀ (l seen : List α) (a : α), a ∈ pdUniqueAux seen l ↔ (a ∈ l ∧ a ∉ seen) := by
  intro l
  induction l with
  | nil => simp [pdUniqueAux]
  | cons x xs ih =>
    intro seen a
    rw [pdUniqueAux]
    by_cases hx : x ∈ seen
    · rw [if_pos hx, ih]
      by_cases hax : a = x
      · subst hax; simp [hx]
      · simp [List.mem_cons, hax]
    · rw [if_neg hx]
      by_cases hax : a = x
      · subst hax; simp [hx]
      · simp [List.mem_cons, ih, hax]

theorem mem_pdUnique {α : Type} [DecidableEq α] (l : List α) (a : α) :
    a ∈ pdUnique l ↔ a ∈ l := by
  rw [pdUnique, mem_pdUniqueAux]
  simp

theorem mem_confirmed (df : List NOrderRow) (r : NOrderRow) :
    r ∈ confirmed df ↔ r ∈ df ∧ r.stateId ≠ some 1 := by
  simp [confirmed, List.mem_filter]

theorem mem_cart_users (df : List NOrderRow) (r : NOrderRow) :
    r ∈ cart_users df ↔ r ∈ df ∧ r.stateId = some 1 := by
  simp [cart_users, List.mem_filter]

theorem confirmed_cart_perm (df : List NOrderRow) :
    (confirmed df ++ cart_users df).Perm df := by
  have h := List.filter_append_perm (fun r : NOrderRow => decide (r.stateId ≠ some 1)) df
  have e : (df.filter fun r => !(decide (r.stateId ≠ some 1))) = cart_users df := by
    apply List.filter_congr
    intro r _
    simp [cart_users]
  rw [e] at h
  exact h

theorem normalizeOrders_name (rows : List OrderRow) :
    ∀ n ∈ normalizeOrders rows, n.eventName = eventNameOf n.eventId := by
  intro n hn
  simp only [normalizeOrders, List.mem_map] at hn
  obtain ⟨r, _, rfl⟩ := hn
  rfl

theorem normalizeSearches_name (rows : List SearchRow) :
    ∀ s ∈ normalizeSearches rows, s.eventName = eventNameOf s.event_id := by
  intro s hs
  simp only [normalizeSearches, List.mem_map] at hs
  obtain ⟨r, _, rfl⟩ := hs
  rfl

theorem lookupName_some_mem : ∀ (l : List (Int × String)) (id : Int) (n : String),
    lookupName id l = some n → (id, n) ∈ l := by
  intro l
  induction l with
  | nil => intro id n h; simp [lookupName] at h
  | cons p rest ih =>
    intro id n h
    obtain ⟨k, v⟩ := p
    rw [lookupName] at h
    by_cases hid : id = k
    · rw [if_pos hid] at h
      injection h with hv
      subst hid; subst hv
      exact List.mem_cons_self _ _
    · rw [if_neg hid] at h
      exact List.mem_cons_of_mem _ (ih id n h)

theorem lookupName_none_not_mem : ∀ (l : List (Int × String)) (id : Int),
    lookupName id l = none → ∀ n, (id, n) ∉ l := by
  intro l
  induction l with
  | nil => intro id _ n h; simp at h
  | cons p rest ih =>
    intro id h n hmem
    obtain ⟨k, v⟩ := p
    rw [lookupName] at h
    by_cases hid : id = k
    · rw [if_pos hid] at h; exact Option.noConfusion h
    · rw [if_neg hid] at h
      rcases List.mem_cons.mp hmem with h1 | h1
      · exact hid (congrArg Prod.fst h1)
      · exact ih id h n h1

/-- C2: splitting the filtered orders into confirmed (stateId ≠ 1) and
cart (stateId = 1) is a total disjoint partition: the two subsets permute
the filtered set, their lengths sum to its length, and every row lies in
exactly one of them. -/
theorem claim2_confirmed_cart_partition : ∀ (df : List NOrderRow),
    (confirmed df ++ cart_users df).Perm df ∧
    (confirmed df).length + (cart_users df).length = df.length ∧
    ∀ r ∈ df, (r ∈ confirmed df ↔ r ∉ cart_users df) := by
  intro df
  refine ⟨confirmed_cart_perm df, ?_, ?_⟩
  · have h := (confirmed_cart_perm df).length_eq
    simpa [List.length_append] using h
  · intro r hr
    rw [mem_confirmed, mem_cart_users]
    tauto

theorem claim2_witness :
    w2row ∈ [w2row] ∧ (w2row ∈ confirmed [w2row] ↔ w2row ∉ cart_users [w2row]) :=
  ⟨by decide, (claim2_confirmed_cart_partition [w2row]).2.2 w2row (by decide)⟩

/-- C10: a row whose stateId is missing (none, modelling NaN) satisfies
`stateId ≠ 1` and therefore lands on the confirmed side; only rows whose
stateId is exactly 1 go to the cart side; and the confirmed subset is what
total_orders, total_amount and avg_amount are computed over. -/
theorem claim10_null_state_confirmed : ∀ (df : List NOrderRow) (r : NOrderRow), r ∈ df →
    ((r ∈ confirmed df ↔ r.stateId ≠ some 1) ∧
     (r ∈ cart_users df ↔ r.stateId = some 1) ∧
     (r.stateId = none → r ∈ confirmed df ∧ r ∉ cart_users df)) ∧
    ∀ (selected : List String) (searchesF : List NSearchRow),
      (aggregate selected df searchesF).total_orders = (confirmed df).length ∧
      (aggregate selected df searchesF).total_amount = sumAmounts (confirmed df) ∧
      (aggregate selected df searchesF).avg_amount = meanAmounts (confirmed df) := by
  intro df r hr
  constructor
  · refine ⟨?_, ?_, ?_⟩
    · rw [mem_confirmed]; tauto
    · rw [mem_cart_users]; tauto
    · intro hnone
      rw [mem_confirmed, mem_cart_users]
      refine ⟨⟨hr, by simp [hnone]⟩, by simp [hnone]⟩
  · intro s sf
    exact ⟨rfl, rfl, rfl⟩

theorem claim10_witness :
    w10row.stateId = none ∧ (w10row ∈ confirmed [w10row] ∧ w10row ∉ cart_users [w10row]) :=
  ⟨rfl, (claim10_null_state_confirmed [w10row] w10row (by decide)).1.2.2 rfl⟩

/-- C5: conversion_rate and user_value are guarded divisions: when
unique_users is positive they equal purchases/users*100 and
total_amount/users, and otherwise both are 0. -/
theorem claim5_guarded_division :
    ∀ (selected : List String) (df : List NOrderRow) (sf : List NSearchRow),
    (0 < (aggregate selected df sf).unique_users →
      (aggregate selected df sf).conversion_rate
        = (aggregate selected df sf).purchases_count / (aggregate selected df sf).unique_users * 100 ∧
      (aggregate selected df sf).user_value
        = (aggregate selected df sf).total_amount / (aggregate selected df sf).unique_users) ∧
    (¬ 0 < (aggregate selected df sf).unique_users →
      (aggregate selected df sf).conversion_rate = 0 ∧
      (aggregate selected df sf).user_value = 0) := by
  intro s df sf
  constructor <;> intro h <;> simp only [aggregate] at h ⊢ <;> simp [h]

theorem claim5_witness :
    ¬ 0 < (aggregate [] [w2row] []).unique_users ∧
    (aggregate [] [w2row] []).conversion_rate = 0 ∧
    (aggregate [] [w2row] []).user_value = 0 :=
  ⟨by decide, (claim5_guarded_division [] [w2row] []).2 (by decide)⟩

/-- C9: the derived eventName column is the pure function `eventNameOf` of
eventId — the lookup-table name for mapped ids, the stringified id
otherwise — and adding the column neither drops nor changes any row. -/
theorem claim9_eventName_pure : ∀ (rows : List OrderRow),
    (normalizeOrders rows).length = rows.length ∧
    (normalizeOrders rows).map (fun n => n.toOrderRow) = rows ∧
    (∀ n ∈ normalizeOrders rows, n.eventName = eventNameOf n.eventId) ∧
    (∀ (id : Int) (n : String), (id, n) ∈ event_names → eventNameOf id = n) ∧
    (∀ id : Int, (∀ n, (id, n) ∉ event_names) → eventNameOf id = toString id) := by
  intro rows
  refine ⟨by simp [normalizeOrders], ?_, normalizeOrders_name rows, ?_, ?_⟩
  · simp only [normalizeOrders, List.map_map]
    exact List.map_id rows
  · intro id n h
    fin_cases h <;> decide
  · intro id hnone
    cases heq : lookupName id event_names with
    | none => simp [eventNameOf, heq]
    | some v => exact absurd (lookupName_some_mem _ _ _ heq) (hnone v)

theorem claim9_witness :
    ((2 : Int), "Rimini Marathon") ∈ event_names ∧ eventNameOf 2 = "Rimini Marathon" :=
  ⟨by decide, (claim9_eventName_pure []).2.2.2.1 2 "Rimini Marathon" (by decide)⟩

/-- C8: if any of the required Orders columns eventId, amount, stateId is
missing, the run fails with the Orders SchemaError, whose named columns
include every missing one, and no bundle is rendered. -/
theorem claim8_schema_error :
    ∀ (oc sc : List String) (orders : List OrderRow) (searches : List SearchRow)
      (selected : List String),
    ("eventId" ∉ oc ∨ "amount" ∉ oc ∨ "stateId" ∉ oc) →
    runApp oc sc orders searches selected = AppResult.schemaFailure ordersSchemaError ∧
    (∀ c ∈ ordersSchemaError.namedColumns, c ∈ ["eventId", "amount", "stateId"]) ∧
    ("eventId" ∉ oc → "eventId" ∈ ordersSchemaError.namedColumns) ∧
    ("amount" ∉ oc → "amount" ∈ ordersSchemaError.namedColumns) ∧
    ("stateId" ∉ oc → "stateId" ∈ ordersSchemaError.namedColumns) ∧
    (∀ b, runApp oc sc orders searches selected ≠ AppResult.rendered b) := by
  intro oc sc orders searches selected hmiss
  have h : runApp oc sc orders searches selected = AppResult.schemaFailure ordersSchemaError := by
    rw [runApp, if_pos hmiss]
  refine ⟨h, by decide, fun _ => by decide, fun _ => by decide, fun _ => by decide, ?_⟩
  intro b hb
  rw [h] at hb
  exact AppResult.noConfusion hb

theorem claim8_witness :
    ("eventId" ∉ (["eventId", "stateId"] : List String) ∨
      "amount" ∉ (["eventId", "stateId"] : List String) ∨
      "stateId" ∉ (["eventId", "stateId"] : List String)) ∧
    runApp ["eventId", "stateId"] ["event_id", "unique_users_count"] [] [] []
      = AppResult.schemaFailure ordersSchemaError :=
  ⟨by decide, (claim8_schema_error ["eventId", "stateId"] ["event_id", "unique_users_count"] [] [] []
    (by decide)).1⟩

/-- C6 (amended): when both schemas are valid and the filtered confirmed
subset is empty, the run short-circuits to the no-confirmed-orders warning
state — distinct from a schema failure — and renders no bundle at all, so
no summary scalar or distribution view is produced (rather than zero
scalars and empty views). -/
theorem claim6_empty_confirmed_warning :
    ∀ (oc sc : List String) (orders : List OrderRow) (searches : List SearchRow)
      (selected : List String),
    ("eventId" ∈ oc ∧ "amount" ∈ oc ∧ "stateId" ∈ oc) →
    ("event_id" ∈ sc ∧ "unique_users_count" ∈ sc) →
    confirmed (selectedFilter selected (normalizeOrders orders)) = [] →
    runApp oc sc orders searches selected = AppResult.noConfirmedWarning ∧
    (∀ e, runApp oc sc orders searches selected ≠ AppResult.schemaFailure e) ∧
    (∀ b, runApp oc sc orders searches selected ≠ AppResult.rendered b) := by
  intro oc sc orders searches selected h1 h2 hempty
  have h : runApp oc sc orders searches selected = AppResult.noConfirmedWarning := by
    rw [runApp, if_neg (by tauto), if_neg (by tauto), if_pos hempty]
  exact ⟨h, fun e he => by rw [h] at he; exact AppResult.noConfusion he,
         fun b hb => by rw [h] at hb; exact AppResult.noConfusion hb⟩

/-- C6 counterexample to the claim as stated: on a table whose only row is
a cart row the pipeline returns the warning state, not a bundle of
zero-valued scalars and empty views — no summary scalar is returned at all. -/
theorem claim6_counterexample :
    runApp fullOrderCols fullSearchCols c6orders [] [] = AppResult.noConfirmedWarning := by
  decide

theorem claim6_witness :
    confirmed (selectedFilter [] (normalizeOrders c6orders)) = [] ∧
    runApp fullOrderCols fullSearchCols c6orders [] [] = AppResult.noConfirmedWarning :=
  ⟨by decide, (claim6_empty_confirmed_warning fullOrderCols fullSearchCols c6orders [] []
    (by decide) (by decide) (by decide)).1⟩

/-- C3 (code bug): with a nonempty confirmed subset and an empty funnel
table the five funnel counters are 0 and the guarded scalars
conversion_rate and user_value are 0 as the claim requires, but the pareto
cumulative percentages are not 0: the script evaluates
`values / selfies_count * 100` with `selfies_count = 0` — a plain Python
int because the accumulation loop never ran — so dividing the list
`values` by it raises TypeError instead of completing (modelled by
`cum_pct = none`). -/
theorem claim3_pareto_division_crash :
    runApp fullOrderCols fullSearchCols c3orders [] [] = AppResult.rendered c3result ∧
    c3result.selfies_count = 0 ∧ c3result.unique_users = 0 ∧
    c3result.pareto_values = [0, 0, 0, 0, 0] ∧
    c3result.conversion_rate = 0 ∧ c3result.user_value = 0 ∧
    c3result.cum_pct = none :=
  ⟨rfl, rfl, rfl, rfl, rfl, rfl, rfl⟩

theorem priceBucket_total (a : ℚ) (ha : 0 < a) : ∃ l, priceBucket a = some l ∧ l ∈ labels := by
  by_cases h1 : a ≤ 10
  · refine ⟨"0-10€", ?_, by decide⟩
    unfold priceBucket
    rw [if_pos ⟨ha, h1⟩]
  · push_neg at h1
    by_cases h2 : a ≤ 20
    · refine ⟨"11-20€", ?_, by decide⟩
      unfold priceBucket
      rw [if_neg (by rintro ⟨hx, hy⟩; linarith), if_pos ⟨h1, h2⟩]
    · push_neg at h2
      by_cases h3 : a ≤ 30
      · refine ⟨"21-30€", ?_, by decide⟩
        unfold priceBucket
        rw [if_neg (by rintro ⟨hx, hy⟩; linarith), if_neg (by rintro ⟨hx, hy⟩; linarith),
            if_pos ⟨h2, h3⟩]
      · push_neg at h3
        by_cases h4 : a ≤ 40
        · refine ⟨"31-40€", ?_, by decide⟩
          unfold priceBucket
          rw [if_neg (by rintro ⟨hx, hy⟩; linarith), if_neg (by rintro ⟨hx, hy⟩; linarith),
              if_neg (by rintro ⟨hx, hy⟩; linarith), if_pos ⟨h3, h4⟩]
        · push_neg at h4
          by_cases h5 : a ≤ 50
          · refine ⟨"41-50€", ?_, by decide⟩
            unfold priceBucket
            rw [if_neg (by rintro ⟨hx, hy⟩; linarith), if_neg (by rintro ⟨hx, hy⟩; linarith),
                if_neg (by rintro ⟨hx, hy⟩; linarith), if_neg (by rintro ⟨hx, hy⟩; linarith),
                if_pos ⟨h4, h5⟩]
          · push_neg at h5
            refine ⟨">50€", ?_, by decide⟩
            unfold priceBucket
            rw [if_neg (by rintro ⟨hx, hy⟩; linarith), if_neg (by rintro ⟨hx, hy⟩; linarith),
                if_neg (by rintro ⟨hx, hy⟩; linarith), if_neg (by rintro ⟨hx, hy⟩; linarith),
                if_neg (by rintro ⟨hx, hy⟩; linarith), if_pos h5]

/-- C1 counterexample to the claim as stated: the bins are not the
half-open `[0,10), ...` bins — `pd.cut` defaults to right-closed bins that
exclude the left edge, so the boundary amount 0 falls into no bucket at
all (NaN), while 10 falls into the 0-10 bucket rather than 11-20. -/
theorem claim1_counterexample : priceBucket 0 = none := by decide

/-- C1 (amended): the six buckets are the left-open right-closed bins
`(0,10], (10,20], (20,30], (30,40], (40,50], (50,inf)`; every strictly
positive amount falls into exactly one of the six labelled buckets (the
bucket map is a single-valued total function on positive amounts), while
the boundary amount 0 — like every negative amount — falls into no bucket,
and 10 falls into the 0-10 bucket; on the confirmed amounts [5, 15, 25, 60]
the per-bucket counts are 0-10:1, 11-20:1, 21-30:1, 31-40:0, 41-50:0,
>50:1, as the spec example states. -/
theorem claim1_price_bucketing :
    (∀ a : ℚ, 0 < a → ∃ l, priceBucket a = some l ∧ l ∈ labels) ∧
    priceBucket 0 = none ∧ priceBucket (-5) = none ∧ priceBucket 10 = some "0-10€" ∧
    bucketCounts (confirmed (normalizeOrders c1orders)) =
      [("0-10€", 1), ("11-20€", 1), ("21-30€", 1), ("31-40€", 0), ("41-50€", 0), (">50€", 1)] :=
  ⟨priceBucket_total, by decide, by decide, by decide, by decide⟩

theorem claim1_witness : (0 : ℚ) < 7 ∧ ∃ l, priceBucket 7 = some l ∧ l ∈ labels :=
  ⟨by decide, claim1_price_bucketing.1 7 (by decide)⟩

theorem priceBucket_cases (a : ℚ) :
    priceBucket a = none ∨ priceBucket a = some "0-10€" ∨ priceBucket a = some "11-20€" ∨
    priceBucket a = some "21-30€" ∨ priceBucket a = some "31-40€" ∨
    priceBucket a = some "41-50€" ∨ priceBucket a = some ">50€" := by
  unfold priceBucket
  split_ifs <;> simp

theorem priceBucket_isSome (a : ℚ) : (priceBucket a).isSome = decide (0 < a) := by
  unfold priceBucket
  split_ifs with h1 h2 h3 h4 h5 h6
  · simp [h1.1]
  · simp [show (0:ℚ) < a by linarith [h2.1]]
  · simp [show (0:ℚ) < a by linarith [h3.1]]
  · simp [show (0:ℚ) < a by linarith [h4.1]]
  · simp [show (0:ℚ) < a by linarith [h5.1]]
  · simp [show (0:ℚ) < a by linarith]
  · have hc : ¬ (0:ℚ) < a := by
      intro h0
      have k1 : (10:ℚ) < a := by by_contra k; push_neg at k; exact h1 ⟨h0, k⟩
      have k2 : (20:ℚ) < a := by by_contra k; push_neg at k; exact h2 ⟨k1, k⟩
      have k3 : (30:ℚ) < a := by by_contra k; push_neg at k; exact h3 ⟨k2, k⟩
      have k4 : (40:ℚ) < a := by by_contra k; push_neg at k; exact h4 ⟨k3, k⟩
      have k5 : (50:ℚ) < a := by by_contra k; push_neg at k; exact h5 ⟨k4, k⟩
      exact h6 k5
    simp [hc]

theorem priceBucketOpt_isSome (r : NOrderRow) :
    (priceBucketOpt r.amount).isSome = posAmount r := by
  cases h : r.amount with
  | none => simp [priceBucketOpt, posAmount, h]
  | some a => simp [priceBucketOpt, posAmount, h, priceBucket_isSome]

theorem length_filter_cons {α : Type} (p : α → Bool) (x : α) (xs : List α) :
    ((x :: xs).filter p).length = (if p x then 1 else 0) + (xs.filter p).length := by
  rw [List.filter_cons]
  split <;> simp [Nat.add_comm]

theorem sum_map_add_nat {α : Type} (l : List α) (f g : α → ℕ) :
    (l.map (fun a => f a + g a)).sum = (l.map f).sum + (l.map g).sum := by
  induction l with
  | nil => rfl
  | cons x xs ih =>
    simp only [List.map_cons, List.sum_cons, ih]
    omega

theorem indicator_sum (o : Option ℚ) :
    (labels.map (fun l => if decide (priceBucketOpt o = some l) then (1:ℕ) else 0)).sum
      = if (priceBucketOpt o).isSome then 1 else 0 := by
  cases o with
  | none => decide
  | some a =>
    have e : priceBucketOpt (some a) = priceBucket a := rfl
    rcases priceBucket_cases a with h | h | h | h | h | h | h <;> rw [e, h] <;> decide

theorem bucketCounts_map_snd (conf : List NOrderRow) :
    (bucketCounts conf).map Prod.snd
      = labels.map (fun l => (conf.filter (fun t => decide (priceBucketOpt t.amount = some l))).length) := by
  simp [bucketCounts, List.map_map, Function.comp]

theorem bucketCounts_sum (conf : List NOrderRow) :
    ((bucketCounts conf).map Prod.snd).sum = (conf.filter posAmount).length := by
  induction conf with
  | nil => decide
  | cons r rs ih =>
    rw [bucketCounts_map_snd] at ih ⊢
    have e1 : labels.map
          (fun l => (((r :: rs).filter (fun t => decide (priceBucketOpt t.amount = some l)))).length)
        = labels.map (fun l => (if decide (priceBucketOpt r.amount = some l) then (1:ℕ) else 0)
            + ((rs.filter (fun t => decide (priceBucketOpt t.amount = some l))).length)) := by
      apply List.map_congr_left
      intro l _
      exact length_filter_cons _ r rs
    rw [e1, sum_map_add_nat, indicator_sum, ih, length_filter_cons posAmount r rs,
        priceBucketOpt_isSome]

/-- C4 (amended): price_distribution always has exactly six buckets — its
labels are a permutation of the six bucket labels, zero-filled — but it is
ordered by count descending (the value_counts order), not by bucket lower
bound ascending, and its counts sum to the number of confirmed rows whose
amount is strictly positive: rows with null amount, negative amount, or
amount exactly 0 are silently excluded from the distribution. -/
theorem claim4_price_distribution_shape : ∀ (conf : List NOrderRow),
    (price_distribution conf).length = 6 ∧
    ((price_distribution conf).map Prod.fst).Perm labels ∧
    List.Sorted countGe (price_distribution conf) ∧
    ((price_distribution conf).map Prod.snd).sum = (conf.filter posAmount).length := by
  intro conf
  have hperm := List.perm_insertionSort countGe (bucketCounts conf)
  refine ⟨?_, ?_, List.sorted_insertionSort countGe (bucketCounts conf), ?_⟩
  · simp only [price_distribution]
    rw [hperm.length_eq]
    simp [bucketCounts, labels]
  · have h1 : ((price_distribution conf).map Prod.fst).Perm ((bucketCounts conf).map Prod.fst) :=
      hperm.map Prod.fst
    have h2 : (bucketCounts conf).map Prod.fst = labels := by
      simp only [bucketCounts, List.map_map]
      exact List.map_id labels
    rw [h2] at h1
    exact h1
  · have h1 : ((price_distribution conf).map Prod.snd).Perm ((bucketCounts conf).map Prod.snd) :=
      hperm.map Prod.snd
    rw [h1.sum_eq]
    exact bucketCounts_sum conf

/-- C4 counterexample to the claim as stated: on three confirmed rows with
amounts 60, 60 and 0 the distribution starts with the >50 bucket — it is
sorted by count descending, not by bucket lower bound ascending — and its
counts sum to 2, not to the 3 confirmed rows, even though every row has a
non-negative non-null amount: the amount-0 row is silently dropped. -/
theorem claim4_counterexample :
    (price_distribution c4rows).map Prod.fst ≠ labels ∧
    ((price_distribution c4rows).map Prod.fst).head? = some ">50€" ∧
    ((price_distribution c4rows).map Prod.snd).sum = 2 ∧
    (c4rows.filter nonNegAmount).length = 3 ∧
    c4rows.length = 3 := by
  decide

theorem selectedFilter_nil (rows : List NOrderRow) : selectedFilter [] rows = rows := by
  simp [selectedFilter]

theorem searchesFilter_nil (rows : List NSearchRow) : searchesFilter [] rows = rows := by
  simp [searchesFilter]

theorem selectedFilter_all (orders : List OrderRow) :
    selectedFilter (allEventNames orders) (normalizeOrders orders) = normalizeOrders orders := by
  by_cases h : allEventNames orders = []
  · rw [selectedFilter, if_pos h]
  · rw [selectedFilter, if_neg h]
    apply List.filter_eq_self.mpr
    intro r hr
    simp only [decide_eq_true_eq]
    exact (mem_pdUnique _ _).mpr (List.mem_map_of_mem _ hr)

theorem foldl_congr_mem {α β : Type} (f g : β → α → β) (l : List α) (z : β)
    (h : ∀ a ∈ l, ∀ b, f b a = g b a) : l.foldl f z = l.foldl g z := by
  induction l generalizing z with
  | nil => rfl
  | cons x xs ih =>
    rw [List.foldl_cons, List.foldl_cons, h x (List.mem_cons_self x xs)]
    exact ih _ (fun a ha b => h a (List.mem_cons_of_mem _ ha) b)

theorem foldl_fixed_of_mem {α β : Type} (f : β → α → β) (l : List α) (z : β)
    (h : ∀ a ∈ l, ∀ b, f b a = b) : l.foldl f z = z := by
  induction l generalizing z with
  | nil => rfl
  | cons x xs ih =>
    rw [List.foldl_cons, h x (List.mem_cons_self x xs)]
    exact ih z (fun a ha b => h a (List.mem_cons_of_mem _ ha) b)

theorem filter_event_data (sAll : List NSearchRow) (sel : List String) (eid : Int)
    (hall : ∀ s ∈ sAll, s.event_id = eid → s.eventName ∈ sel) :
    (sAll.filter (fun s => decide (s.eventName ∈ sel))).filter
        (fun s => decide (s.event_id = eid))
      = sAll.filter (fun s => decide (s.event_id = eid)) := by
  induction sAll with
  | nil => rfl
  | cons s rest ih =>
    have ihr := ih (fun t ht hid => hall t (List.mem_cons_of_mem _ ht) hid)
    by_cases hsel : s.eventName ∈ sel
    · by_cases hid : s.event_id = eid
      · simp [List.filter_cons, hsel, hid, ihr]
      · simp [List.filter_cons, hsel, hid, ihr]
    · by_cases hid : s.event_id = eid
      · exact absurd (hall s (List.mem_cons_self _ _) hid) hsel
      · simp [List.filter_cons, hsel, hid, ihr]

theorem funnelTotals_filter (df : List NOrderRow) (sAll : List NSearchRow) (sel : List String)
    (h : ∀ s ∈ sAll, s.event_id ∈ df.map (fun r => r.eventId) → s.eventName ∈ sel) :
    funnelTotals df (sAll.filter (fun s => decide (s.eventName ∈ sel)))
      = funnelTotals df sAll := by
  by_cases h0 : sAll = []
  · subst h0; rfl
  · by_cases h1 : sAll.filter (fun s => decide (s.eventName ∈ sel)) = []
    · unfold funnelTotals
      rw [if_pos h1, if_neg h0]
      symm
      apply foldl_fixed_of_mem
      intro eid hmem acc
      have hdf : eid ∈ df.map (fun r => r.eventId) := (mem_pdUnique _ _).mp hmem
      have he : sAll.filter (fun s => decide (s.event_id = eid)) = [] := by
        rw [← filter_event_data sAll sel eid (fun s hs hid => h s hs (by rw [hid]; exact hdf)),
            h1]
        rfl
      rw [he]
      rfl
    · unfold funnelTotals
      rw [if_neg h1, if_neg h0]
      apply foldl_congr_mem
      intro eid hmem acc
      have hdf : eid ∈ df.map (fun r => r.eventId) := (mem_pdUnique _ _).mp hmem
      rw [filter_event_data sAll sel eid (fun s hs hid => h s hs (by rw [hid]; exact hdf))]

theorem singleEventMode_nil : singleEventMode [] = false := rfl

theorem singleEventMode_of_two {l : List String} (h : 2 ≤ l.length) :
    singleEventMode l = false := by
  unfold singleEventMode
  have hlen : (l.length == 1) = false := by
    rw [beq_eq_false_iff_ne]
    omega
  rw [hlen, Bool.and_false]

theorem aggregate_congr (s1 s2 : List String) (df : List NOrderRow)
    (sf1 sf2 : List NSearchRow) (hm : singleEventMode s1 = singleEventMode s2)
    (hf : funnelTotals df sf1 = funnelTotals df sf2) :
    aggregate s1 df sf1 = aggregate s2 df sf2 := by
  unfold aggregate
  rw [hm, hf]

/-- C7 (amended): an empty selection is the identity filter, and selecting
the full set of event names occurring in the orders table yields the same
result as no filter whenever the table contains at least two distinct
event names.  (When it contains exactly one, the full-set selection flips
the daily chart into single-event mode, so the bundles differ — see the
counterexample.) -/
theorem claim7_filter_identity :
    (∀ rows : List NOrderRow, selectedFilter [] rows = rows) ∧
    ∀ (oc sc : List String) (orders : List OrderRow) (searches : List SearchRow),
      2 ≤ (allEventNames orders).length →
      runApp oc sc orders searches (allEventNames orders)
        = runApp oc sc orders searches [] := by
  refine ⟨selectedFilter_nil, ?_⟩
  intro oc sc orders searches h2
  have hne : allEventNames orders ≠ [] := by
    intro h
    rw [h] at h2
    simp at h2
  have hnames : ∀ s ∈ normalizeSearches searches,
      s.event_id ∈ (normalizeOrders orders).map (fun r => r.eventId) →
      s.eventName ∈ allEventNames orders := by
    intro s hs hid
    rw [normalizeSearches_name searches s hs]
    rcases List.mem_map.mp hid with ⟨r, hr, heq⟩
    have hname : eventNameOf s.event_id = r.eventName := by
      rw [← heq, normalizeOrders_name orders r hr]
    rw [hname]
    exact (mem_pdUnique _ _).mpr (List.mem_map_of_mem _ hr)
  have hfun : funnelTotals (normalizeOrders orders)
        (searchesFilter (allEventNames orders) (normalizeSearches searches))
      = funnelTotals (normalizeOrders orders) (searchesFilter [] (normalizeSearches searches)) := by
    rw [searchesFilter_nil, searchesFilter, if_neg hne]
    exact funnelTotals_filter _ _ _ hnames
  unfold runApp
  rw [selectedFilter_all, selectedFilter_nil]
  split_ifs
  · rfl
  · rfl
  · rfl
  · exact congrArg AppResult.rendered
      (aggregate_congr _ _ _ _ _
        (by rw [singleEventMode_of_two h2, singleEventMode_nil]) hfun)

theorem claim7_witness :
    2 ≤ (allEventNames c7worders).length ∧
    runApp fullOrderCols fullSearchCols c7worders [] (allEventNames c7worders)
      = runApp fullOrderCols fullSearchCols c7worders [] [] :=
  ⟨by decide,
   claim7_filter_identity.2 fullOrderCols fullSearchCols c7worders [] (by decide)⟩

/-- C7 counterexample to the claim as stated: on a table whose rows all
belong to one event, selecting the full set of its event names (a single
name) does not reproduce the no-filter bundle: the selection has length 1,
so the daily chart switches to single-event mode (grouped by date only)
while the no-filter run groups by date and event. -/
theorem claim7_counterexample :
    allEventNames c7orders = ["Rimini Marathon"] ∧
    resultDaily (runApp fullOrderCols fullSearchCols c7orders [] ["Rimini Marathon"])
      ≠ resultDaily (runApp fullOrderCols fullSearchCols c7orders [] []) := by
  decide
